import Mathlib

/-!
# Verification of the Text-handwriting API routes

Shallow embedding of the two Next.js API route handlers of the
Text-handwriting repository:

* `pages/api/images/index.js` (the `/api/images` route, from
  `src/pages/api/images/index.js`),
* `pages/api/images/[...id].js` (the `/api/images/:id` route, given in full
  in `src/README.md`),
* the Cloudinary adapter `lib/cloudinary.js` (given in full in
  `src/README.md`).

The external collaborators — the `handwritten.js` renderer and the remote
Cloudinary API — are modelled as oracles: arbitrary functions from the
arguments the code passes them to `Except`-valued results.  Each handler run
returns the HTTP response together with the list of collaborator calls it
performed, so that theorems can speak both about the response and about
which remote operations were (or were not) invoked.
-/

/-- An error value thrown by a collaborator (the renderer or the remote
store).  The payload is an uninterpreted string: the handlers never inspect
the error, they only forward it into the response body. -/
structure JsError where
  payload : String
deriving DecidableEq, Repr

/-- A result value returned by a remote Cloudinary call.  The payload is an
uninterpreted string: the handlers never inspect results, they only forward
them into the response body. -/
structure CloudinaryResult where
  payload : String
deriving DecidableEq, Repr

/-- A JSON field value as it appears in the response bodies produced by the
handlers: a string literal, a forwarded error, or a forwarded result. -/
inductive JsVal where
  | str (s : String)
  | ofError (e : JsError)
  | ofResult (r : CloudinaryResult)
deriving DecidableEq, Repr

/-- An HTTP response: status code plus a JSON object body, given as the
ordered list of its fields. -/
structure Response where
  status : Nat
  body : List (String × JsVal)
deriving DecidableEq, Repr

/-- `{ message: "Success", result }` — the body of every success response. -/
def successRespBody (r : CloudinaryResult) : List (String × JsVal) :=
  [("message", JsVal.str "Success"), ("result", JsVal.ofResult r)]

/-- `{ message: "Error", error }` — the body of every catch-branch
response. -/
def errorRespBody (e : JsError) : List (String × JsVal) :=
  [("message", JsVal.str "Error"), ("error", JsVal.ofError e)]

/-- `const CLOUDINARY_FOLDER_NAME = "text-to-handwriting/";`
(lib/cloudinary.js). -/
def CLOUDINARY_FOLDER_NAME : String := "text-to-handwriting/"

/-- The argument object of the `cloudinary.api.resources` call built by
`handleGetCloudinaryUploads`.  The field `pfx` embeds the JS key named
p-r-e-f-i-x (spelled here as `pfx` only for lexical reasons). -/
structure ResourcesParams where
  type : String
  pfx : String
  resource_type : String
deriving DecidableEq, Repr

/-- The argument object of the `cloudinary.uploader.upload` call built by
`handleCloudinaryUpload`: the file (possibly `undefined`, modelled as
`none`), the folder option (`null` modelled as `none`), the public id and
the resource type. -/
structure UploadApiCall where
  file : Option String
  folder : Option String
  public_id : Option String
  resource_type : String
deriving DecidableEq, Repr

/-- The argument pair of the `cloudinary.api.delete_resources` call built by
`handleCloudinaryDelete`. -/
structure DeleteApiCall where
  ids : List String
  resource_type : String
deriving DecidableEq, Repr

/-- The resource object passed to `handleCloudinaryUpload`:
`{ file, publicId?, folder? }`. -/
structure UploadResource where
  file : Option String
  folder : Bool
  publicId : Option String
deriving DecidableEq, Repr

/-- `handleGetCloudinaryUploads` (lib/cloudinary.js): builds the
`cloudinary.api.resources` request
`{ type: "upload", prefix: CLOUDINARY_FOLDER_NAME, resource_type: "image" }`.
The remote call itself is performed by the `apiResources` oracle. -/
def handleGetCloudinaryUploads : ResourcesParams :=
  { type := "upload"
    pfx := CLOUDINARY_FOLDER_NAME
    resource_type := "image" }

/-- `handleCloudinaryUpload` (lib/cloudinary.js): builds the
`cloudinary.uploader.upload` request from a resource object, mapping
`folder: resource.folder ? CLOUDINARY_FOLDER_NAME : null`.  The remote call
itself is performed by the `uploaderUpload` oracle. -/
def handleCloudinaryUpload (resource : UploadResource) : UploadApiCall :=
  { file := resource.file
    folder := if resource.folder then some CLOUDINARY_FOLDER_NAME else none
    public_id := resource.publicId
    resource_type := "auto" }

/-- `handleCloudinaryDelete` (lib/cloudinary.js): builds the
`cloudinary.api.delete_resources` request from an array of public ids.  The
remote call itself is performed by the `apiDeleteResources` oracle. -/
def handleCloudinaryDelete (ids : List String) : DeleteApiCall :=
  { ids := ids
    resource_type := "image" }

/-- The options object passed to `handwritten(text, options)` in
`handlePostRequest`. -/
structure RenderOptions where
  ruled : Bool
  outputType : String
  inkColor : String
deriving DecidableEq, Repr

/-- The external collaborators, as oracles.  `handwritten` is the
handwritten.js renderer (returns the array of page images as base64
strings, or throws); the other three are the remote Cloudinary calls made
by the adapter functions. -/
structure Oracles where
  handwritten : String → RenderOptions → Except JsError (List String)
  apiResources : ResourcesParams → Except JsError CloudinaryResult
  uploaderUpload : UploadApiCall → Except JsError CloudinaryResult
  apiDeleteResources : DeleteApiCall → Except JsError CloudinaryResult

/-- One collaborator call performed during a handler run, in order. -/
inductive Event where
  | renderCall (text : String) (opts : RenderOptions)
  | resourcesCall (params : ResourcesParams)
  | uploadCall (call : UploadApiCall)
  | deleteCall (call : DeleteApiCall)
deriving DecidableEq, Repr

/-- The JSON body of a POST request to `/api/images`:
`{ text, color, ruled }`. -/
structure Body where
  text : String
  color : String
  ruled : Bool
deriving DecidableEq, Repr

/-- The options object `{ ruled, outputType: "png/b64", inkColor: color }`
built inline in `handlePostRequest`. -/
def postRenderOptions (b : Body) : RenderOptions :=
  { ruled := b.ruled
    outputType := "png/b64"
    inkColor := b.color }

/-- `handleGetRequest` (pages/api/images/index.js): awaits
`handleGetCloudinaryUploads()` and returns its result.  Returns the
`Except` outcome together with the collaborator calls performed. -/
def handleGetRequest (o : Oracles) :
    Except JsError CloudinaryResult × List Event :=
  (o.apiResources handleGetCloudinaryUploads,
   [Event.resourcesCall handleGetCloudinaryUploads])

/-- `handlePostRequest` (pages/api/images/index.js): destructures
`{ text, color, ruled }` from the body, calls
`handwritten(text, { ruled, outputType: "png/b64", inkColor: color })`
with no prior validation, takes the FIRST element of the returned array
(`const [base64Image] = ...`; `none` when the array is empty, as JS array
destructuring yields `undefined`), and uploads it with
`handleCloudinaryUpload({ file: base64Image, folder: true })`. -/
def handlePostRequest (o : Oracles) (b : Body) :
    Except JsError CloudinaryResult × List Event :=
  let opts := postRenderOptions b
  match o.handwritten b.text opts with
  | Except.error e => (Except.error e, [Event.renderCall b.text opts])
  | Except.ok images =>
      let call := handleCloudinaryUpload
        { file := images.head?, folder := true, publicId := none }
      (o.uploaderUpload call,
       [Event.renderCall b.text opts, Event.uploadCall call])

/-- A request to the `/api/images` route: method plus (for POST) the JSON
body. -/
structure RequestIndex where
  method : String
  body : Body
deriving DecidableEq, Repr

/-- The default-export `handler` of pages/api/images/index.js.  The JS
`switch (req.method)` on string literals is embedded as the equivalent
chain of string comparisons: GET and POST wrap their helper in try/catch
(success → 200 / 201 with `{message: "Success", result}`, catch → 400 with
`{message: "Error", error}`); every other method falls to the default case
`res.status(405).json({ message: "Method not allowed" })`. -/
def indexHandler (o : Oracles) (req : RequestIndex) :
    Response × List Event :=
  if req.method = "GET" then
    match handleGetRequest o with
    | (Except.ok r, evs) =>
        ({ status := 200, body := successRespBody r }, evs)
    | (Except.error e, evs) =>
        ({ status := 400, body := errorRespBody e }, evs)
  else if req.method = "POST" then
    match handlePostRequest o req.body with
    | (Except.ok r, evs) =>
        ({ status := 201, body := successRespBody r }, evs)
    | (Except.error e, evs) =>
        ({ status := 400, body := errorRespBody e }, evs)
  else
    ({ status := 405, body := [("message", JsVal.str "Method not allowed")] },
     [])

/-- The value of `req.query.id` in the catch-all route
pages/api/images/[...id].js: absent (`undefined`), a plain string, or an
array of path segments. -/
inductive QueryId where
  | missing
  | strId (s : String)
  | arrId (segs : List String)
deriving DecidableEq, Repr

/-- JS truthiness test `!id` used by the [...id].js handler: `undefined` and
the empty string are falsy; every array (even the empty one) is truthy. -/
def jsFalsy : QueryId → Bool
  | QueryId.missing => true
  | QueryId.strId s => s = ""
  | QueryId.arrId _ => false

/-- The normalisation `if (Array.isArray(id)) { id = id.join("/"); }`
performed after the truthiness check; a string id is kept as is.  (The
`missing` case is unreachable there, since `undefined` is falsy.) -/
def joinId : QueryId → String
  | QueryId.missing => ""
  | QueryId.strId s => s
  | QueryId.arrId segs => String.intercalate "/" segs

/-- A request to the `/api/images/:id` route: method plus `req.query.id`. -/
structure RequestId where
  method : String
  id : QueryId
deriving DecidableEq, Repr

/-- `handleDeleteRequest` (pages/api/images/[...id].js, given in
src/README.md): calls `handleCloudinaryDelete([id])` with the singleton
array holding the id. -/
def handleDeleteRequest (o : Oracles) (id : String) :
    Except JsError CloudinaryResult × List Event :=
  let call := handleCloudinaryDelete [id]
  (o.apiDeleteResources call, [Event.deleteCall call])

/-- The default-export `handler` of pages/api/images/[...id].js (given in
src/README.md): first the truthiness check
`if (!id) { res.status(400).json({ error: "Missing id" }); return; }`,
then the array join, then the `switch (req.method)` with a DELETE case
(try/catch as in the index handler) and a 405 default case. -/
def idHandler (o : Oracles) (req : RequestId) : Response × List Event :=
  if jsFalsy req.id then
    ({ status := 400, body := [("error", JsVal.str "Missing id")] }, [])
  else
    let id := joinId req.id
    if req.method = "DELETE" then
      match handleDeleteRequest o id with
      | (Except.ok r, evs) =>
          ({ status := 200, body := successRespBody r }, evs)
      | (Except.error e, evs) =>
          ({ status := 400, body := errorRespBody e }, evs)
    else
      ({ status := 405,
         body := [("message", JsVal.str "Method not allowed")] }, [])

/-- A request to either API route. -/
inductive ApiRequest where
  | toIndex (r : RequestIndex)
  | toId (r : RequestId)
deriving DecidableEq, Repr

/-- Dispatch a request to the route handler that serves it. -/
def dispatch (o : Oracles) : ApiRequest → Response × List Event
  | ApiRequest.toIndex r => indexHandler o r
  | ApiRequest.toId r => idHandler o r

/-- Modelled from the spec: the set of allowed ink colors
`{black, red, blue}`.  The source imports `COLORS` from
`handwritten.js/src/constants` (an external dependency whose code is not in
this repository) and never uses it; the spec fixes the allowed values. -/
def COLORS : List String := ["black", "red", "blue"]

/-- A sample request body used to instantiate theorems on concrete inputs. -/
def demoBody : Body := { text := "hello", color := "black", ruled := true }

/-- Concrete oracles in which every collaborator call succeeds. -/
def okOracles : Oracles :=
  { handwritten := fun _ _ => Except.ok ["PAGE0", "PAGE1"]
    apiResources := fun _ => Except.ok { payload := "listing" }
    uploaderUpload := fun _ => Except.ok { payload := "uploaded" }
    apiDeleteResources := fun _ => Except.ok { payload := "deleted" } }

/-- Concrete oracles in which every collaborator call throws. -/
def failOracles : Oracles :=
  { handwritten := fun _ _ => Except.error { payload := "boom" }
    apiResources := fun _ => Except.error { payload := "boom" }
    uploaderUpload := fun _ => Except.error { payload := "boom" }
    apiDeleteResources := fun _ => Except.error { payload := "boom" } }

/-- C4: a request to `/api/images` with a method other than GET or POST,
and a request to `/api/images/:id` with a present (truthy) identifier and a
method other than DELETE, both receive HTTP status 405. -/
theorem c4_unsupported_method_405 (o : Oracles) (req : ApiRequest)
    (h : match req with
      | ApiRequest.toIndex r => r.method ≠ "GET" ∧ r.method ≠ "POST"
      | ApiRequest.toId r => jsFalsy r.id = false ∧ r.method ≠ "DELETE") :
    (dispatch o req).1.status = 405 := by
  cases req with
  | toIndex r =>
      obtain ⟨h1, h2⟩ := h
      simp [dispatch, indexHandler, h1, h2]
  | toId r =>
      obtain ⟨h1, h2⟩ := h
      simp [dispatch, idHandler, h1, h2]

/-- Witness for C4: a PUT request to `/api/images` gets status 405. -/
theorem c4_witness :
    (dispatch okOracles
      (ApiRequest.toIndex { method := "PUT", body := demoBody })).1.status = 405 :=
  c4_unsupported_method_405 okOracles
    (ApiRequest.toIndex { method := "PUT", body := demoBody }) (by decide)

/-- C5: a DELETE request to `/api/images/:id` whose identifier is absent
(`undefined`) or the empty string is answered with HTTP 400 and body
`{error: "Missing id"}`, and no collaborator call (in particular no remote
delete) is performed: the event trace is empty. -/
theorem c5_missing_id_400_no_delete (o : Oracles) (id : QueryId)
    (h : id = QueryId.missing ∨ id = QueryId.strId "") :
    idHandler o { method := "DELETE", id := id } =
      ({ status := 400, body := [("error", JsVal.str "Missing id")] }, []) := by
  rcases h with h | h <;> subst h <;> rfl

/-- Witness for C5: a DELETE with absent identifier gets 400 and an empty
event trace. -/
theorem c5_witness :
    idHandler okOracles { method := "DELETE", id := QueryId.missing } =
      ({ status := 400, body := [("error", JsVal.str "Missing id")] }, []) :=
  c5_missing_id_400_no_delete okOracles QueryId.missing (Or.inl rfl)

/-- C9: in the `/api/images/:id` route the falsy-identifier check precedes
method dispatch: whatever the request method, a falsy identifier yields
HTTP 400 with body `{error: "Missing id"}` (never 405) and no collaborator
call. -/
theorem c9_id_check_precedes_method_dispatch (o : Oracles) (method : String)
    (id : QueryId) (h : jsFalsy id = true) :
    idHandler o { method := method, id := id } =
      ({ status := 400, body := [("error", JsVal.str "Missing id")] }, []) := by
  simp [idHandler, h]

/-- Witness for C9: an unsupported method (PUT) with a missing identifier
still gets 400, not 405. -/
theorem c9_witness :
    idHandler okOracles { method := "PUT", id := QueryId.missing } =
      ({ status := 400, body := [("error", JsVal.str "Missing id")] }, []) :=
  c9_id_check_precedes_method_dispatch okOracles "PUT" QueryId.missing rfl

/-- C6: a DELETE request whose identifier arrived as one or more path
segments joins them with "/" and performs exactly one remote delete call,
whose ids argument is the singleton list holding the joined identifier. -/
theorem c6_delete_joins_segments_singleton (o : Oracles) (segs : List String)
    (_h : segs ≠ []) :
    (idHandler o { method := "DELETE", id := QueryId.arrId segs }).2 =
      [Event.deleteCall
        { ids := [String.intercalate "/" segs], resource_type := "image" }] := by
  cases h2 : o.apiDeleteResources
      { ids := [String.intercalate "/" segs], resource_type := "image" } with
  | error e =>
      simp [idHandler, jsFalsy, joinId, handleDeleteRequest,
        handleCloudinaryDelete, h2]
  | ok r =>
      simp [idHandler, jsFalsy, joinId, handleDeleteRequest,
        handleCloudinaryDelete, h2]

/-- Witness for C6: deleting `["text-to-handwriting", "abc"]` performs one
remote delete of the single id "text-to-handwriting/abc". -/
theorem c6_witness :
    (idHandler okOracles
      { method := "DELETE",
        id := QueryId.arrId ["text-to-handwriting", "abc"] }).2 =
      [Event.deleteCall
        { ids := ["text-to-handwriting/abc"], resource_type := "image" }] :=
  c6_delete_joins_segments_singleton okOracles
    ["text-to-handwriting", "abc"] (by decide)

/-- The collaborator call that the handler makes for this request throws
`e`: for GET the remote list call, for POST the renderer or (after a
successful render) the upload call, for DELETE with a present identifier
the remote delete call. -/
def relevantThrow (o : Oracles) (e : JsError) : ApiRequest → Prop
  | ApiRequest.toIndex r =>
      (r.method = "GET" ∧
        o.apiResources handleGetCloudinaryUploads = Except.error e) ∨
      (r.method = "POST" ∧
        (o.handwritten r.body.text (postRenderOptions r.body) =
            Except.error e ∨
         ∃ imgs, o.handwritten r.body.text (postRenderOptions r.body) =
            Except.ok imgs ∧
          o.uploaderUpload (handleCloudinaryUpload
            { file := imgs.head?, folder := true, publicId := none }) =
            Except.error e))
  | ApiRequest.toId r =>
      r.method = "DELETE" ∧ jsFalsy r.id = false ∧
      o.apiDeleteResources (handleCloudinaryDelete [joinId r.id]) =
        Except.error e

/-- C3: whenever the renderer or the remote store call performed for a GET
or POST to `/api/images`, or for a DELETE to `/api/images/:id` with a
present identifier, throws, the handler catches it and responds with HTTP
400 and body `{message: "Error", error}` carrying that error — the failure
never escapes the handler (the handler is a total function into
responses). -/
theorem c3_collaborator_failures_caught (o : Oracles) (e : JsError)
    (req : ApiRequest) (h : relevantThrow o e req) :
    (dispatch o req).1 = { status := 400, body := errorRespBody e } := by
  cases req with
  | toIndex r =>
      rcases h with ⟨hm, hg⟩ | ⟨hm, hpost⟩
      · simp only [handleGetCloudinaryUploads] at hg
        simp [dispatch, indexHandler, hm, handleGetRequest,
          handleGetCloudinaryUploads, hg]
      · rcases hpost with hr | ⟨imgs, hr, hu⟩
        · simp [dispatch, indexHandler, hm, handlePostRequest, hr]
        · simp [handleCloudinaryUpload] at hu
          simp [dispatch, indexHandler, hm, handlePostRequest,
            handleCloudinaryUpload, hr, hu]
  | toId r =>
      obtain ⟨hm, hid, hd⟩ := h
      simp only [handleCloudinaryDelete] at hd
      simp [dispatch, idHandler, hm, hid, handleDeleteRequest,
        handleCloudinaryDelete, hd]

/-- Witness for C3: with a failing remote store, a GET request is answered
400 with the thrown error in the body. -/
theorem c3_witness :
    (dispatch failOracles
      (ApiRequest.toIndex { method := "GET", body := demoBody })).1 =
      { status := 400, body := errorRespBody { payload := "boom" } } :=
  c3_collaborator_failures_caught failOracles { payload := "boom" }
    (ApiRequest.toIndex { method := "GET", body := demoBody })
    (Or.inl ⟨rfl, rfl⟩)

/-- C7: every upload performed by a POST run carries the folder option set
to the fixed namespace (because the handler passes `folder: true` and the
adapter maps it to `CLOUDINARY_FOLDER_NAME`); the remote list call
performed by a GET run requests exactly the resources whose id has that
same fixed namespace as its p-r-e-f-i-x; and that namespace is the string
"text-to-handwriting/". -/
theorem c7_fixed_namespace (o : Oracles) (b : Body) :
    (∀ call, Event.uploadCall call ∈
        (indexHandler o { method := "POST", body := b }).2 →
      call.folder = some CLOUDINARY_FOLDER_NAME) ∧
    (∀ params, Event.resourcesCall params ∈
        (indexHandler o { method := "GET", body := b }).2 →
      params.pfx = CLOUDINARY_FOLDER_NAME) ∧
    CLOUDINARY_FOLDER_NAME = "text-to-handwriting/" := by
  refine ⟨?_, ?_, rfl⟩
  · intro call hmem
    cases hr : o.handwritten b.text (postRenderOptions b) with
    | error e =>
        simp [indexHandler, handlePostRequest, hr] at hmem
    | ok imgs =>
        cases hu : o.uploaderUpload (handleCloudinaryUpload
            { file := imgs.head?, folder := true, publicId := none }) with
        | error e =>
            simp [handleCloudinaryUpload] at hu
            simp [indexHandler, handlePostRequest, handleCloudinaryUpload,
              hr, hu] at hmem
            simp [hmem]
        | ok r =>
            simp [handleCloudinaryUpload] at hu
            simp [indexHandler, handlePostRequest, handleCloudinaryUpload,
              hr, hu] at hmem
            simp [hmem]
  · intro params hmem
    cases hg : o.apiResources handleGetCloudinaryUploads with
    | error e =>
        simp only [handleGetCloudinaryUploads] at hg
        simp [indexHandler, handleGetRequest, handleGetCloudinaryUploads,
          hg] at hmem
        simp [hmem]
    | ok r =>
        simp only [handleGetCloudinaryUploads] at hg
        simp [indexHandler, handleGetRequest, handleGetCloudinaryUploads,
          hg] at hmem
        simp [hmem]

/-- Witness for C7: in a concrete successful POST run the one upload event
carries folder "text-to-handwriting/", and the concrete GET run lists under
that same p-r-e-f-i-x. -/
theorem c7_witness :
    (({ file := some "PAGE0", folder := some "text-to-handwriting/",
        public_id := none, resource_type := "auto" } : UploadApiCall).folder =
      some CLOUDINARY_FOLDER_NAME) ∧
    (handleGetCloudinaryUploads.pfx = CLOUDINARY_FOLDER_NAME) :=
  ⟨(c7_fixed_namespace okOracles demoBody).1
      { file := some "PAGE0", folder := some "text-to-handwriting/",
        public_id := none, resource_type := "auto" } (by decide),
   (c7_fixed_namespace okOracles demoBody).2.1 handleGetCloudinaryUploads
      (by decide)⟩

/-- C8: when the renderer returns a non-empty array of page images, the
POST run performs exactly one upload, whose file is the FIRST page; the
remaining pages appear in no collaborator call. -/
theorem c8_only_first_page_uploaded (o : Oracles) (b : Body) (img : String)
    (rest : List String)
    (h : o.handwritten b.text (postRenderOptions b) = Except.ok (img :: rest)) :
    (indexHandler o { method := "POST", body := b }).2 =
      [Event.renderCall b.text (postRenderOptions b),
       Event.uploadCall
         { file := some img, folder := some CLOUDINARY_FOLDER_NAME,
           public_id := none, resource_type := "auto" }] := by
  cases hu : o.uploaderUpload
      { file := some img, folder := some CLOUDINARY_FOLDER_NAME,
        public_id := none, resource_type := "auto" } with
  | error e =>
      simp [indexHandler, handlePostRequest, handleCloudinaryUpload, h, hu]
  | ok r =>
      simp [indexHandler, handlePostRequest, handleCloudinaryUpload, h, hu]

/-- Witness for C8: with a renderer producing two pages, only the first is
uploaded. -/
theorem c8_witness :
    (indexHandler okOracles { method := "POST", body := demoBody }).2 =
      [Event.renderCall "hello" (postRenderOptions demoBody),
       Event.uploadCall
         { file := some "PAGE0", folder := some CLOUDINARY_FOLDER_NAME,
           public_id := none, resource_type := "auto" }] :=
  c8_only_first_page_uploaded okOracles demoBody "PAGE0" ["PAGE1"] rfl

/-- C10: when the relevant collaborator calls succeed, GET `/api/images`
responds 200, POST `/api/images` responds 201, and DELETE
`/api/images/:id` responds 200, each with body
`{message: "Success", result}`. -/
theorem c10_success_statuses (o : Oracles) (b : Body) (segs : List String)
    (rg rp rd : CloudinaryResult) (imgs : List String)
    (hg : o.apiResources handleGetCloudinaryUploads = Except.ok rg)
    (hr : o.handwritten b.text (postRenderOptions b) = Except.ok imgs)
    (hp : o.uploaderUpload (handleCloudinaryUpload
      { file := imgs.head?, folder := true, publicId := none }) = Except.ok rp)
    (hd : o.apiDeleteResources (handleCloudinaryDelete
      [String.intercalate "/" segs]) = Except.ok rd) :
    (indexHandler o { method := "GET", body := b }).1 =
      { status := 200, body := successRespBody rg } ∧
    (indexHandler o { method := "POST", body := b }).1 =
      { status := 201, body := successRespBody rp } ∧
    (idHandler o { method := "DELETE", id := QueryId.arrId segs }).1 =
      { status := 200, body := successRespBody rd } := by
  refine ⟨?_, ?_, ?_⟩
  · simp only [handleGetCloudinaryUploads] at hg
    simp [indexHandler, handleGetRequest, handleGetCloudinaryUploads, hg]
  · simp [handleCloudinaryUpload] at hp
    simp [indexHandler, handlePostRequest, handleCloudinaryUpload, hr, hp]
  · simp only [handleCloudinaryDelete] at hd
    simp [idHandler, jsFalsy, joinId, handleDeleteRequest,
      handleCloudinaryDelete, hd]

/-- Witness for C10: concrete successful runs get 200 / 201 / 200. -/
theorem c10_witness :
    (indexHandler okOracles { method := "GET", body := demoBody }).1 =
      { status := 200, body := successRespBody { payload := "listing" } } ∧
    (indexHandler okOracles { method := "POST", body := demoBody }).1 =
      { status := 201, body := successRespBody { payload := "uploaded" } } ∧
    (idHandler okOracles
      { method := "DELETE", id := QueryId.arrId ["a", "b"] }).1 =
      { status := 200, body := successRespBody { payload := "deleted" } } :=
  c10_success_statuses okOracles demoBody ["a", "b"]
    { payload := "listing" } { payload := "uploaded" } { payload := "deleted" }
    ["PAGE0", "PAGE1"] rfl rfl rfl rfl

/-- Counterexample for C1 as stated: the body has an EMPTY text and the
color "green", which is outside {black, red, blue}; yet the POST handler
does not reject the request — its event trace contains the renderer call,
made with exactly those invalid values.  (The handler performs no
validation at all; `COLORS` is imported in the source but never used.) -/
theorem c1_counterexample :
    ("green" ∉ COLORS) ∧
    Event.renderCall ""
        { ruled := true, outputType := "png/b64", inkColor := "green" } ∈
      (indexHandler okOracles
        { method := "POST",
          body := { text := "", color := "green", ruled := true } }).2 := by
  decide

/-- C1 amended: the POST handler performs no input validation — for every
body, its first collaborator call is the renderer call with exactly the
body's text, color and ruled values (whether or not they satisfy the
spec's constraints); an invalid input is rejected, if at all, by the
renderer itself, whose thrown error the handler catches and surfaces as
HTTP 400 with `{message: "Error", error}`. -/
theorem c1_amended_no_validation_renderer_rejects (o : Oracles) (b : Body) :
    (indexHandler o { method := "POST", body := b }).2.head? =
      some (Event.renderCall b.text (postRenderOptions b)) ∧
    (∀ e, o.handwritten b.text (postRenderOptions b) = Except.error e →
      (indexHandler o { method := "POST", body := b }).1 =
        { status := 400, body := errorRespBody e }) := by
  constructor
  · cases hr : o.handwritten b.text (postRenderOptions b) with
    | error e => simp [indexHandler, handlePostRequest, hr]
    | ok imgs =>
        cases hu : o.uploaderUpload (handleCloudinaryUpload
            { file := imgs.head?, folder := true, publicId := none }) with
        | error e =>
            simp [handleCloudinaryUpload] at hu
            simp [indexHandler, handlePostRequest, handleCloudinaryUpload,
              hr, hu]
        | ok r =>
            simp [handleCloudinaryUpload] at hu
            simp [indexHandler, handlePostRequest, handleCloudinaryUpload,
              hr, hu]
  · intro e he
    simp [indexHandler, handlePostRequest, he]

/-- Witness for C1 amended: with a throwing renderer and an invalid body
(empty text, color "green") the response is 400 with the renderer's error
in the body. -/
theorem c1_amended_witness :
    (indexHandler failOracles
      { method := "POST",
        body := { text := "", color := "green", ruled := true } }).1 =
      { status := 400, body := errorRespBody { payload := "boom" } } :=
  (c1_amended_no_validation_renderer_rejects failOracles
    { text := "", color := "green", ruled := true }).2 { payload := "boom" } rfl

/-- Counterexample for C2 as stated: a PUT request to `/api/images` gets the
non-2xx status 405, but its body is `{message: "Method not allowed"}` —
not of the shape `{message: "Error", error}` for any error value. -/
theorem c2_counterexample :
    (indexHandler okOracles { method := "PUT", body := demoBody }).1 =
      { status := 405,
        body := [("message", JsVal.str "Method not allowed")] } ∧
    ¬ (200 ≤ 405 ∧ 405 < 300) ∧
    (∀ e : JsError,
      [("message", JsVal.str "Method not allowed")] ≠ errorRespBody e) := by
  refine ⟨by decide, by decide, ?_⟩
  intro e h
  simp [errorRespBody] at h

/-- C2 amended: every non-2xx response from either route is one of exactly
three shapes — a caught-error 400 with body `{message: "Error", error}`, a
405 with body `{message: "Method not allowed"}` (no error field, message
not "Error"), or the missing-id 400 with body `{error: "Missing id"}` (no
message field). -/
theorem c2_amended_non2xx_body_shapes (o : Oracles) (req : ApiRequest)
    (h : ¬ (200 ≤ (dispatch o req).1.status ∧ (dispatch o req).1.status < 300)) :
    (∃ e, (dispatch o req).1.body = errorRespBody e) ∨
    (dispatch o req).1.body = [("message", JsVal.str "Method not allowed")] ∨
    (dispatch o req).1.body = [("error", JsVal.str "Missing id")] := by
  cases req with
  | toIndex r =>
      by_cases hG : r.method = "GET"
      · cases hg : o.apiResources handleGetCloudinaryUploads with
        | ok rres =>
            exfalso
            apply h
            simp only [handleGetCloudinaryUploads] at hg
            simp [dispatch, indexHandler, hG, handleGetRequest,
              handleGetCloudinaryUploads, hg]
        | error e =>
            refine Or.inl ⟨e, ?_⟩
            simp only [handleGetCloudinaryUploads] at hg
            simp [dispatch, indexHandler, hG, handleGetRequest,
              handleGetCloudinaryUploads, hg]
      · by_cases hP : r.method = "POST"
        · cases hr : o.handwritten r.body.text (postRenderOptions r.body) with
          | error e =>
              refine Or.inl ⟨e, ?_⟩
              simp [dispatch, indexHandler, hG, hP, handlePostRequest, hr]
          | ok imgs =>
              cases hu : o.uploaderUpload (handleCloudinaryUpload
                  { file := imgs.head?, folder := true, publicId := none }) with
              | error e =>
                  refine Or.inl ⟨e, ?_⟩
                  simp [handleCloudinaryUpload] at hu
                  simp [dispatch, indexHandler, hG, hP, handlePostRequest,
                    handleCloudinaryUpload, hr, hu]
              | ok rres =>
                  exfalso
                  apply h
                  simp [handleCloudinaryUpload] at hu
                  simp [dispatch, indexHandler, hG, hP, handlePostRequest,
                    handleCloudinaryUpload, hr, hu]
        · exact Or.inr (Or.inl (by simp [dispatch, indexHandler, hG, hP]))
  | toId r =>
      by_cases hid : jsFalsy r.id = true
      · exact Or.inr (Or.inr (by simp [dispatch, idHandler, hid]))
      · by_cases hD : r.method = "DELETE"
        · cases hd : o.apiDeleteResources
              (handleCloudinaryDelete [joinId r.id]) with
          | error e =>
              refine Or.inl ⟨e, ?_⟩
              simp only [handleCloudinaryDelete] at hd
              simp [dispatch, idHandler, hid, hD, handleDeleteRequest,
                handleCloudinaryDelete, hd]
          | ok rres =>
              exfalso
              apply h
              simp only [handleCloudinaryDelete] at hd
              simp [dispatch, idHandler, hid, hD, handleDeleteRequest,
                handleCloudinaryDelete, hd]
        · exact Or.inr (Or.inl (by simp [dispatch, idHandler, hid, hD]))

/-- Witness for C2 amended: the PUT response (status 405, non-2xx) falls in
one of the three shapes. -/
theorem c2_amended_witness :
    (∃ e, (dispatch okOracles
        (ApiRequest.toIndex { method := "PUT", body := demoBody })).1.body =
      errorRespBody e) ∨
    (dispatch okOracles
        (ApiRequest.toIndex { method := "PUT", body := demoBody })).1.body =
      [("message", JsVal.str "Method not allowed")] ∨
    (dispatch okOracles
        (ApiRequest.toIndex { method := "PUT", body := demoBody })).1.body =
      [("error", JsVal.str "Missing id")] :=
  c2_amended_non2xx_body_shapes okOracles
    (ApiRequest.toIndex { method := "PUT", body := demoBody }) (by decide)
